import Mathlib

/-!
Verification of the USARB schedule formatter (`data_parser.py`).

Shallow embedding conventions:
* A Python `datetime.date` is represented by its proleptic Gregorian ordinal
  (`date.toordinal()`), an `Int`; subtracting two dates yields the day
  difference, adding `timedelta(days = k)` adds `k`.
* Python integer floor division `//` and `divmod` are `Int.fdiv` / `Int.fmod`.
* Optional / possibly-missing dict fields are `Option` values; `x or d`
  on such a field collapses `none` (and falsy values) to the default.
* Fallible operations (`strptime`, `time.replace`) return `Option` / `Except`.
* `sorted(xs, key = k)` is stable insertion sort under `k · ≤ k ·`:
  an element is inserted before the first element it is `≤`-related to,
  which reproduces CPython's stable ordering.
-/

namespace DataParser

/-! ### Calendar arithmetic (models of `datetime.date`) -/

/-- Leap-year test of the proleptic Gregorian calendar (Python
`calendar.isleap`, used implicitly by `datetime.date`). -/
def isLeapYear (y : Nat) : Bool :=
  y % 4 == 0 && (y % 100 != 0 || y % 400 == 0)

/-- Number of days in month `m` (1..12) of year `y`, as `datetime.date`
validates it. Months outside 1..12 are never constructed; they get 0. -/
def daysInMonth (y m : Nat) : Nat :=
  match m with
  | 1 => 31
  | 2 => if isLeapYear y then 29 else 28
  | 3 => 31
  | 4 => 30
  | 5 => 31
  | 6 => 30
  | 7 => 31
  | 8 => 31
  | 9 => 30
  | 10 => 31
  | 11 => 30
  | 12 => 31
  | _ => 0

/-- Days in year `y` that precede month `m`. -/
def daysBeforeMonth (y m : Nat) : Nat :=
  (List.range (m - 1)).foldl (fun acc i => acc + daysInMonth y (i + 1)) 0

/-- Proleptic Gregorian ordinal of the date `y-m-d`, exactly Python's
`datetime.date(y, m, d).toordinal()` (day 1 is 0001-01-01). -/
def toOrdinal (y m d : Nat) : Int :=
  ((365 * (y - 1) + (y - 1) / 4 + (y - 1) / 400 - (y - 1) / 100)
    + daysBeforeMonth y m + d : Nat)

/-- `WEEK_ZERO_START = date(2025, 9, 1)`, the fixed epoch (a Monday). -/
def WEEK_ZERO_START : Int := toOrdinal 2025 9 1

/-! ### `_parse_date_str`, the model of `datetime.strptime(s, "%d.%m.%Y")`

CPython's `_strptime` compiles `"%d.%m.%Y"` to the anchored regex
`(3[01]|[12]\d|0[1-9]|[1-9]) \. (1[0-2]|0[1-9]|[1-9]) \. (\d\d\d\d)`
(whole string must be consumed), then builds `date(year, month, day)`
from `int()` of each group, which additionally checks `1 <= year` and
that the day exists in the month. The explicit classes such as `[12]`
and `[0-9]` are ASCII, but `\d` matches any Unicode decimal digit
(category Nd) and `int()` converts it by its decimal value — so the
second character of a day matched by `[12]\d` and all four year digits
may come from any decimal-digit script. Because every one of those
field patterns consumes only Nd characters and the separators are
literal dots, matching is equivalent to splitting the string at its
maximal Nd runs, which is how the model proceeds. -/

/-- The first code point (the zero) of each of the 66 runs of ten
consecutive Unicode decimal digits (category Nd, Unicode 14.0 as shipped
with CPython 3.11): what `\d` matches and `int()` converts. -/
def ndZeros : List Nat :=
  [48, 1632, 1776, 1984, 2406, 2534,
   2662, 2790, 2918, 3046, 3174, 3302,
   3430, 3558, 3664, 3792, 3872, 4160,
   4240, 6112, 6160, 6470, 6608, 6784,
   6800, 6992, 7088, 7232, 7248, 42528,
   43216, 43264, 43472, 43504, 43600, 44016,
   65296, 66720, 68912, 69734, 69872, 69942,
   70096, 70384, 70736, 70864, 71248, 71360,
   71472, 71904, 72016, 72784, 73040, 73120,
   92768, 92864, 93008, 120782, 120792, 120802,
   120812, 120822, 123200, 123632, 125264, 130032]

/-- The zero of the Nd digit run containing `c`, when `c` is a decimal
digit. -/
def ndZero (c : Char) : Option Nat :=
  ndZeros.find? fun z => z ≤ c.toNat && c.toNat ≤ z + 9

/-- Unicode decimal digit test: what CPython's `\d` matches. -/
def isDig (c : Char) : Bool := (ndZero c).isSome

/-- Decimal value of a digit: its offset in its Nd run (0 otherwise). -/
def digitVal (c : Char) : Nat :=
  match ndZero c with
  | some z => c.toNat - z
  | none => 0

/-- `int()` of a digit string (most significant first). -/
def digitsToNat (ds : List Char) : Nat :=
  ds.foldl (fun acc c => acc * 10 + digitVal c) 0

/-- The day field pattern `3[01]|[12]\d|0[1-9]|[1-9]`. -/
def dayCheck : List Char → Bool
  | [c] => 49 ≤ c.toNat && c.toNat ≤ 57
  | [c1, c2] =>
    (c1.toNat == 51 && (c2.toNat == 48 || c2.toNat == 49))
      || ((c1.toNat == 49 || c1.toNat == 50) && isDig c2)
      || (c1.toNat == 48 && (49 ≤ c2.toNat && c2.toNat ≤ 57))
  | _ => false

/-- The month field pattern `1[0-2]|0[1-9]|[1-9]`. -/
def monthCheck : List Char → Bool
  | [c] => 49 ≤ c.toNat && c.toNat ≤ 57
  | [c1, c2] =>
    (c1.toNat == 49 && (48 ≤ c2.toNat && c2.toNat ≤ 50))
      || (c1.toNat == 48 && (49 ≤ c2.toNat && c2.toNat ≤ 57))
  | _ => false

/-- The year field pattern `\d\d\d\d`. -/
def yearCheck (ds : List Char) : Bool := ds.all isDig && ds.length == 4

/-- `_parse_date_str`: `datetime.strptime(date_str, "%d.%m.%Y").date()`,
returning the date ordinal, or `none` where CPython raises `ValueError`. -/
def _parse_date_str (s : String) : Option Int :=
  let cs := s.data
  let d := cs.takeWhile isDig
  match cs.dropWhile isDig with
  | [] => none
  | c1 :: r2 =>
    if c1 = '.' then
      let m := r2.takeWhile isDig
      match r2.dropWhile isDig with
      | [] => none
      | c2 :: r4 =>
        if c2 = '.' then
          let y := r4.takeWhile isDig
          if r4.dropWhile isDig = [] ∧ dayCheck d ∧ monthCheck m ∧ yearCheck y
          then
            let dv := digitsToNat d
            let mv := digitsToNat m
            let yv := digitsToNat y
            if 1 ≤ yv ∧ dv ≤ daysInMonth yv mv then some (toOrdinal yv mv dv)
            else none
          else none
        else none
    else none

/-! ### Week arithmetic -/

/-- `calc_university_week_from_date`: week index of a date relative to the
epoch, `max(1, (target - WEEK_ZERO_START).days // 7 + 1)`. -/
def calc_university_week_from_date (target_date : Int) : Int :=
  let delta_days := target_date - WEEK_ZERO_START
  let week_index := delta_days.fdiv 7 + 1
  max 1 week_index

/-- `calc_date_from_week_and_day`: date of day `day_number` (1 = Monday) in
week `week`, `WEEK_ZERO_START + ((week - 1) * 7 + (day_number - 1))` days. -/
def calc_date_from_week_and_day (week day_number : Int) : Int :=
  let days_from_start := (week - 1) * 7 + (day_number - 1)
  WEEK_ZERO_START + days_from_start

/-! ### Lesson clock windows -/

/-- Python's `"{:02d}".format(n)`: left-pad `str(n)` with `0` to width 2.
Only values in 0..9 gain a pad; every other integer (including negatives,
whose `-` counts toward the width) prints as `str(n)`. -/
def pad2 (n : Int) : String :=
  if 0 ≤ n ∧ n < 10 then "0" ++ toString n else toString n

/-- `_lesson_time_range`: clock window string of a 1-indexed lesson number,
start `08:00 + (n - 1) * 105` minutes, end 90 minutes later, rendered
`"HH:MM - HH:MM"` via `divmod(·, 60)` and zero-padded fields. -/
def _lesson_time_range (lesson_number : Int) : String :=
  let start_minutes_total : Int := 8 * 60
  let step : Int := 105
  let lesson_start := start_minutes_total + (lesson_number - 1) * step
  let lesson_end := lesson_start + 90
  pad2 (lesson_start.fdiv 60) ++ ":" ++ pad2 (lesson_start.fmod 60)
    ++ " - " ++ pad2 (lesson_end.fdiv 60) ++ ":" ++ pad2 (lesson_end.fmod 60)

/-- Python `datetime.min.time().replace(hour = h, minute = m)`: succeeds with
the clock time iff `0 ≤ h ≤ 23` and `0 ≤ m ≤ 59`, else raises `ValueError`. -/
def timeReplace (h m : Int) : Except String (Int × Int) :=
  if 0 ≤ h ∧ h ≤ 23 then
    if 0 ≤ m ∧ m ≤ 59 then .ok (h, m) else .error "minute must be in 0..59"
  else .error "hour must be in 0..23"

/-- `calc_lesson_datetime`: start/end datetimes of a lesson, as
`(date ordinal, hour, minute)` triples; the `time.replace` calls make it
fallible. -/
def calc_lesson_datetime (week day_number lesson_number : Int) :
    Except String ((Int × Int × Int) × (Int × Int × Int)) :=
  let lesson_date := calc_date_from_week_and_day week day_number
  let start_minutes_total : Int := 8 * 60 + (lesson_number - 1) * 105
  let end_minutes_total := start_minutes_total + 90
  match timeReplace (start_minutes_total.fdiv 60) (start_minutes_total.fmod 60) with
  | .error e => .error e
  | .ok s =>
    match timeReplace (end_minutes_total.fdiv 60) (end_minutes_total.fmod 60) with
    | .error e => .error e
    | .ok e => .ok ((lesson_date, s.1, s.2), (lesson_date, e.1, e.2))

/-! ### Lesson entries and the schedule formatter -/

/-- A raw lesson entry (a JSON dict); every field may be absent or null. -/
structure Lesson where
  day_number : Option Int := none
  cours_nr : Option Int := none
  cours_name : Option String := none
  cours_type : Option String := none
  cours_office : Option String := none
  teacher_name : Option String := none

/-- Python `x or d` for an optional int: `None` and `0` are falsy. -/
def pyOrInt (x : Option Int) (d : Int) : Int :=
  match x with
  | none => d
  | some v => if v = 0 then d else v

/-- Python `x or d` for an optional string: `None` and `""` are falsy. -/
def pyOrStr (x : Option String) (d : String) : String :=
  match x with
  | none => d
  | some v => if v = "" then d else v

/-- Python `str(x)` for an optional int inside an f-string: `None` prints
as the literal text `"None"`. -/
def pyStrOptInt : Option Int → String
  | none => "None"
  | some n => toString n

/-- `_weekday_name`: fixed 7-entry day-name table with the
`"Day {code}"` fallback of `dict.get`. -/
def _weekday_name (day_number : Int) : String :=
  if day_number = 1 then "Monday"
  else if day_number = 2 then "Tuesday"
  else if day_number = 3 then "Wednesday"
  else if day_number = 4 then "Thursday"
  else if day_number = 5 then "Friday"
  else if day_number = 6 then "Saturday"
  else if day_number = 7 then "Sunday"
  else "Day " ++ toString day_number

/-- Sort key of a lesson inside a day: `l.get("cours_nr") or 0`. -/
def lessonSortKey (l : Lesson) : Int := pyOrInt l.cours_nr 0

/-- One pipe-delimited lesson line of `format_schedule`. -/
def render_lesson (lesson : Lesson) : String :=
  let nr := lesson.cours_nr
  let name := pyOrStr lesson.cours_name ""
  let ctype := pyOrStr lesson.cours_type ""
  let office := pyOrStr lesson.cours_office ""
  "Lesson " ++ pyStrOptInt nr ++ " | " ++ name ++ " | " ++ ctype ++ " | "
    ++ (if office = "" then "Unknown" else office) ++ " | "
    ++ pyOrStr lesson.teacher_name ""

/-- `sorted(day_lessons, key = lambda l: l.get("cours_nr") or 0)`. -/
def sortLessons (ls : List Lesson) : List Lesson :=
  List.insertionSort (fun a b => lessonSortKey a ≤ lessonSortKey b) ls

/-- `sorted(grouped.keys())`: the day codes in the order the formatter
visits them. -/
def dayOrder (grouped : List (Int × List Lesson)) : List Int :=
  List.insertionSort (fun a b : Int => a ≤ b) (grouped.map Prod.fst)

/-- `format_schedule`: group header, then per day (ascending) a blank line,
the weekday name, and the day's lessons sorted by ordinal. The dict is an
association list with distinct keys, in insertion order. -/
def format_schedule (grouped : List (Int × List Lesson)) : String :=
  let body := (dayOrder grouped).flatMap fun day_number =>
    let day_lessons := sortLessons ((grouped.lookup day_number).getD [])
    "" :: (_weekday_name day_number ++ ":") :: day_lessons.map render_lesson
  String.intercalate "\n" ("Day of the week:" :: body)

/-! ### Orchestrator -/

/-- The raw payload returned by the external fetch collaborator; the value
under its `"week"` key (possibly absent or null). -/
structure RawPayload where
  week : Option (List Lesson)

/-- Appending an entry to the group of day `d`, preserving dict insertion
order (new keys go last, entries within a key keep arrival order). -/
def groupInsert (grouped : List (Int × List Lesson)) (d : Int) (item : Lesson) :
    List (Int × List Lesson) :=
  match grouped with
  | [] => [(d, [item])]
  | (k, vs) :: rest =>
    if k = d then (k, vs ++ [item]) :: rest
    else (k, vs) :: groupInsert rest d item

/-- The grouping loop of `parse_raw_schedule_json`: bucket entries by
`item.get("day_number") or 0`. -/
def groupByDay (entries : List Lesson) : List (Int × List Lesson) :=
  entries.foldl (fun acc item => groupInsert acc (pyOrInt item.day_number 0) item) []

/-- `parse_raw_schedule_json`: resolve the target week (from `date_str` if
truthy, else the passed `week`, else 1), fetch, group, format. The external
`get_raw_schedule_json` collaborator is passed in as `fetch`. A `ValueError`
from `strptime` propagates as `.error`. -/
def parse_raw_schedule_json (fetch : String → Int → Bool → RawPayload)
    (group_name : String) (week : Option Int) (date_str : Option String)
    (debug : Bool) : Except String String :=
  let resolved : Except String Int :=
    match date_str with
    | some s =>
      if s ≠ "" then
        match _parse_date_str s with
        | some target => .ok (calc_university_week_from_date target)
        | none => .error "ValueError: time data does not match format"
      else match week with | some w => .ok w | none => .ok 1
    | none => match week with | some w => .ok w | none => .ok 1
  match resolved with
  | .error e => .error e
  | .ok wk =>
    let raw := fetch group_name wk debug
    let entries := raw.week.getD []
    .ok (format_schedule (groupByDay entries))

/-- A probe collaborator whose payload records the week it was fetched
with, making the week that reaches the fetch observable in the output. -/
def probeFetch : String → Int → Bool → RawPayload :=
  fun _ wk _ => ⟨some [{ day_number := some wk }]⟩

/-! ### SHA-256 (the model of `hashlib.sha256`) and `generate_event_id`

A byte is a `Nat` below 256, a word a `Nat` below `2 ^ 32`; overflow is
explicit `% 2 ^ 32`. The compression follows FIPS 180-4. -/

/-- Right rotation of a 32-bit word: the high `n` bits wrap to the top. -/
def rotr32 (n x : Nat) : Nat := (x / 2 ^ n + x * 2 ^ (32 - n)) % 2 ^ 32

/-- Bitwise complement within 32 bits (for `x < 2 ^ 32`). -/
def not32 (x : Nat) : Nat := (2 ^ 32 - 1) - x % 2 ^ 32

/-- SHA-256 choice function `Ch(e, f, g)`. -/
def shaCh (e f g : Nat) : Nat := (e &&& f) ^^^ (not32 e &&& g)

/-- SHA-256 majority function `Maj(a, b, c)`. -/
def shaMaj (a b c : Nat) : Nat := (a &&& b) ^^^ (a &&& c) ^^^ (b &&& c)

/-- `Σ0(a) = rotr 2 ^ rotr 13 ^ rotr 22`. -/
def bigSigma0 (a : Nat) : Nat := rotr32 2 a ^^^ rotr32 13 a ^^^ rotr32 22 a

/-- `Σ1(e) = rotr 6 ^ rotr 11 ^ rotr 25`. -/
def bigSigma1 (e : Nat) : Nat := rotr32 6 e ^^^ rotr32 11 e ^^^ rotr32 25 e

/-- `σ0(x) = rotr 7 ^ rotr 18 ^ shr 3`. -/
def smallSigma0 (x : Nat) : Nat := rotr32 7 x ^^^ rotr32 18 x ^^^ x / 2 ^ 3

/-- `σ1(x) = rotr 17 ^ rotr 19 ^ shr 10`. -/
def smallSigma1 (x : Nat) : Nat := rotr32 17 x ^^^ rotr32 19 x ^^^ x / 2 ^ 10

/-- The 64 SHA-256 round constants (FIPS 180-4 §4.2.2, in decimal). -/
def shaK : List Nat :=
  [1116352408, 1899447441, 3049323471, 3921009573,
   961987163, 1508970993, 2453635748, 2870763221,
   3624381080, 310598401, 607225278, 1426881987,
   1925078388, 2162078206, 2614888103, 3248222580,
   3835390401, 4022224774, 264347078, 604807628,
   770255983, 1249150122, 1555081692, 1996064986,
   2554220882, 2821834349, 2952996808, 3210313671,
   3336571891, 3584528711, 113926993, 338241895,
   666307205, 773529912, 1294757372, 1396182291,
   1695183700, 1986661051, 2177026350, 2456956037,
   2730485921, 2820302411, 3259730800, 3345764771,
   3516065817, 3600352804, 4094571909, 275423344,
   430227734, 506948616, 659060556, 883997877,
   958139571, 1322822218, 1537002063, 1747873779,
   1955562222, 2024104815, 2227730452, 2361852424,
   2428436474, 2756734187, 3204031479, 3329325298]

/-- The eight working words of the SHA-256 state. -/
structure Hash8 where
  w0 : Nat
  w1 : Nat
  w2 : Nat
  w3 : Nat
  w4 : Nat
  w5 : Nat
  w6 : Nat
  w7 : Nat

/-- The SHA-256 initial hash value (FIPS 180-4 §5.3.3, in decimal). -/
def shaInit : Hash8 :=
  ⟨1779033703, 3144134277, 1013904242, 2773480762,
   1359893119, 2600822924, 528734635, 1541459225⟩

/-- Extend the 16-word schedule by `k` more words. -/
def buildW (ws : List Nat) : Nat → List Nat
  | 0 => ws
  | k + 1 =>
    let n := ws.length
    let next := (smallSigma1 (ws.getD (n - 2) 0) + ws.getD (n - 7) 0
      + smallSigma0 (ws.getD (n - 15) 0) + ws.getD (n - 16) 0) % 2 ^ 32
    buildW (ws ++ [next]) k

/-- One SHA-256 round, `kw` being the sum of round constant and schedule
word. -/
def roundStep (st : Hash8) (kw : Nat) : Hash8 :=
  let t1 := (st.w7 + bigSigma1 st.w4 + shaCh st.w4 st.w5 st.w6 + kw) % 2 ^ 32
  let t2 := (bigSigma0 st.w0 + shaMaj st.w0 st.w1 st.w2) % 2 ^ 32
  ⟨(t1 + t2) % 2 ^ 32, st.w0, st.w1, st.w2,
    (st.w3 + t1) % 2 ^ 32, st.w4, st.w5, st.w6⟩

/-- Big-endian 4-byte groups to 32-bit words. -/
def bytesToWords : List Nat → List Nat
  | b0 :: b1 :: b2 :: b3 :: rest =>
    (((b0 * 256 + b1) * 256 + b2) * 256 + b3) :: bytesToWords rest
  | _ => []

/-- Compress one 64-byte chunk into the running hash. -/
def processChunk (st : Hash8) (chunk : List Nat) : Hash8 :=
  let w := buildW (bytesToWords chunk) 48
  let kw := List.zipWith (fun k wi => k + wi) shaK w
  let f := kw.foldl roundStep st
  ⟨(st.w0 + f.w0) % 2 ^ 32, (st.w1 + f.w1) % 2 ^ 32,
   (st.w2 + f.w2) % 2 ^ 32, (st.w3 + f.w3) % 2 ^ 32,
   (st.w4 + f.w4) % 2 ^ 32, (st.w5 + f.w5) % 2 ^ 32,
   (st.w6 + f.w6) % 2 ^ 32, (st.w7 + f.w7) % 2 ^ 32⟩

/-- `k` bytes of `v`, big-endian. -/
def bytesBE : Nat → Nat → List Nat
  | 0, _ => []
  | k + 1, v => (v / 2 ^ (8 * k)) % 256 :: bytesBE k v

/-- FIPS 180-4 padding: `0x80`, zeros to 56 mod 64, 8-byte bit length. -/
def padMessage (msg : List Nat) : List Nat :=
  let len := msg.length
  let zeros := (119 - len % 64) % 64
  msg ++ [128] ++ List.replicate zeros 0 ++ bytesBE 8 ((8 * len) % 2 ^ 64)

/-- Split into 64-byte chunks (structural recursion on a fuel bound: every
step consumes at least one byte, so the input length suffices as fuel). -/
def toChunksAux : Nat → List Nat → List (List Nat)
  | 0, _ => []
  | _, [] => []
  | fuel + 1, a :: rest =>
    ((a :: rest).take 64) :: toChunksAux fuel ((a :: rest).drop 64)

/-- Split into 64-byte chunks. -/
def toChunks (l : List Nat) : List (List Nat) := toChunksAux l.length l

/-- SHA-256 of a byte sequence, as the final eight-word state. -/
def sha256bytes (msg : List Nat) : Hash8 :=
  (toChunks (padMessage msg)).foldl processChunk shaInit

/-- The four big-endian bytes of a 32-bit word. -/
def wordBytes (w : Nat) : List Nat :=
  [w / 2 ^ 24 % 256, w / 2 ^ 16 % 256, w / 2 ^ 8 % 256, w % 256]

/-- The 32 digest bytes. -/
def digestBytes (h : Hash8) : List Nat :=
  wordBytes h.w0 ++ wordBytes h.w1 ++ wordBytes h.w2 ++ wordBytes h.w3
    ++ wordBytes h.w4 ++ wordBytes h.w5 ++ wordBytes h.w6 ++ wordBytes h.w7

/-- Lowercase hex digit of a value below 16. -/
def hexDigitChar (n : Nat) : Char :=
  if n < 10 then Char.ofNat (48 + n) else Char.ofNat (87 + n)

/-- Lowercase hex encoding, two characters per byte. -/
def hexOfBytes : List Nat → List Char
  | [] => []
  | b :: bs => hexDigitChar (b / 16) :: hexDigitChar (b % 16) :: hexOfBytes bs

/-- `hashlib.sha256(bytes).hexdigest()`. -/
def sha256hexdigest (msg : List Nat) : String :=
  String.mk (hexOfBytes (digestBytes (sha256bytes msg)))

/-- UTF-8 encoding of one code point (Python `str.encode("utf-8")` per
character; Lean `Char` carries exactly the Unicode scalar values). -/
def utf8Bytes (c : Char) : List Nat :=
  let n := c.toNat
  if n < 128 then [n]
  else if n < 2048 then [192 + n / 64, 128 + n % 64]
  else if n < 65536 then [224 + n / 4096, 128 + n / 64 % 64, 128 + n % 64]
  else [240 + n / 262144, 128 + n / 4096 % 64, 128 + n / 64 % 64,
    128 + n % 64]

/-- `s.encode("utf-8")` as a byte list. -/
def strToUtf8 (s : String) : List Nat := s.data.flatMap utf8Bytes

/-- The sixteen lowercase hex digit characters. -/
def lowerHexChars : List Char := "0123456789abcdef".data

/-- `generate_event_id`: first 32 hex characters of the SHA-256 of the
UTF-8 encoded canonical string
`group:week:day:ordinal:name:type`. -/
def generate_event_id (group_name : String) (week day_number lesson_number : Int)
    (cours_name : String := "") (cours_type : String := "") : String :=
  let unique_string := group_name ++ ":" ++ toString week ++ ":"
    ++ toString day_number ++ ":" ++ toString lesson_number ++ ":"
    ++ cours_name ++ ":" ++ cours_type
  String.mk ((hexOfBytes (digestBytes (sha256bytes (strToUtf8 unique_string)))).take 32)

/-! ### Theorems -/

/-- The epoch ordinal as a literal, tying `toOrdinal` to the known value of
`date(2025, 9, 1).toordinal()`. -/
theorem WEEK_ZERO_START_eq : WEEK_ZERO_START = 739495 := by decide

/-- **C1.** For every date `d`, `calc_university_week_from_date` returns
`max 1 (floor ((d - epoch) / 7) + 1)`; the result is never below 1; and at
the epoch, epoch + 6 and epoch + 7 days it returns 1, 1 and 2. -/
theorem C1_week_from_date :
    (∀ d : Int, calc_university_week_from_date d
        = max 1 ((d - WEEK_ZERO_START).fdiv 7 + 1)
      ∧ 1 ≤ calc_university_week_from_date d)
    ∧ calc_university_week_from_date WEEK_ZERO_START = 1
    ∧ calc_university_week_from_date (WEEK_ZERO_START + 6) = 1
    ∧ calc_university_week_from_date (WEEK_ZERO_START + 7) = 2 := by
  refine ⟨fun d => ⟨rfl, le_max_left 1 _⟩, by decide, by decide, by decide⟩

/-- **C2.** Round trip: for every week `w ≥ 1` and day code 1..7, computing
the date of `(w, dayCode)` and mapping it back through
`calc_university_week_from_date` recovers `w`. -/
theorem C2_week_day_roundtrip (w day : Int) (hw : 1 ≤ w)
    (hd1 : 1 ≤ day) (hd7 : day ≤ 7) :
    calc_university_week_from_date (calc_date_from_week_and_day w day) = w := by
  simp only [calc_university_week_from_date, calc_date_from_week_and_day]
  rw [Int.fdiv_eq_ediv _ (by norm_num)]
  omega

/-- Witness for C2 at `w = 3`, `day = 5`. -/
theorem C2_week_day_roundtrip_witness :
    calc_university_week_from_date (calc_date_from_week_and_day 3 5) = 3 :=
  C2_week_day_roundtrip 3 5 (by norm_num) (by norm_num) (by norm_num)

/-- **C3.** For every positive lesson number `n`, `_lesson_time_range`
renders `"HH:MM - HH:MM"` where the start decomposes 08:00 + (n−1)×105
minutes into hours/minutes and the end is 90 minutes after the start;
in particular lessons 1 and 2 give `"08:00 - 09:30"` and `"09:45 - 11:15"`. -/
theorem C3_lesson_time_range :
    (∀ n : Int, 1 ≤ n → ∃ sh sm eh em : Int,
        _lesson_time_range n
          = pad2 sh ++ ":" ++ pad2 sm ++ " - " ++ pad2 eh ++ ":" ++ pad2 em
        ∧ 60 * sh + sm = 480 + (n - 1) * 105 ∧ 0 ≤ sm ∧ sm < 60
        ∧ 60 * eh + em = (480 + (n - 1) * 105) + 90 ∧ 0 ≤ em ∧ em < 60)
    ∧ _lesson_time_range 1 = "08:00 - 09:30"
    ∧ _lesson_time_range 2 = "09:45 - 11:15" := by
  refine ⟨fun n hn => ?_, by decide, by decide⟩
  have h60 : (0 : Int) ≤ 60 := by norm_num
  refine ⟨((8 * 60 : Int) + (n - 1) * 105).fdiv 60,
    ((8 * 60 : Int) + (n - 1) * 105).fmod 60,
    ((8 * 60 : Int) + (n - 1) * 105 + 90).fdiv 60,
    ((8 * 60 : Int) + (n - 1) * 105 + 90).fmod 60,
    rfl, ?_, ?_, ?_, ?_, ?_, ?_⟩
  all_goals
    simp only [Int.fdiv_eq_ediv _ h60, Int.fmod_eq_emod _ h60]
    omega

/-- Witness for the quantified part of C3 at `n = 1`. -/
theorem C3_lesson_time_range_witness :
    ∃ sh sm eh em : Int,
      _lesson_time_range 1
        = pad2 sh ++ ":" ++ pad2 sm ++ " - " ++ pad2 eh ++ ":" ++ pad2 em
      ∧ 60 * sh + sm = 480 + (1 - 1) * 105 ∧ 0 ≤ sm ∧ sm < 60
      ∧ 60 * eh + em = (480 + (1 - 1) * 105) + 90 ∧ 0 ≤ em ∧ em < 60 :=
  C3_lesson_time_range.1 1 (by norm_num)

/-- Sanity: lesson 1 of week 1, Monday, is 08:00-09:30 on the epoch date. -/
theorem calc_lesson_datetime_ok_example :
    calc_lesson_datetime 1 1 1
      = .ok ((WEEK_ZERO_START, 8, 0), (WEEK_ZERO_START, 9, 30)) := by rfl

/-- Sanity: lesson 9 (22:00-23:30) still succeeds. -/
theorem calc_lesson_datetime_ok_nine :
    calc_lesson_datetime 1 1 9
      = .ok ((WEEK_ZERO_START, 22, 0), (WEEK_ZERO_START, 23, 30)) := by rfl

/-- **C9.** For every lesson number `n ≥ 10` (any week and day code) the end
time reaches or passes hour 24, and `calc_lesson_datetime` fails with an
error from the time construction instead of returning a timestamp pair. -/
theorem C9_lesson_datetime_not_total (w d n : Int) (hn : 10 ≤ n) :
    (∃ msg, calc_lesson_datetime w d n = .error msg)
    ∧ 24 ≤ ((8 * 60 : Int) + (n - 1) * 105 + 90).fdiv 60 := by
  have h60 : (0 : Int) ≤ 60 := by norm_num
  have hend : ¬((0 : Int) ≤ ((8 * 60 : Int) + (n - 1) * 105 + 90).fdiv 60
      ∧ ((8 * 60 : Int) + (n - 1) * 105 + 90).fdiv 60 ≤ 23) := by
    rw [Int.fdiv_eq_ediv _ h60]; omega
  constructor
  · simp only [calc_lesson_datetime]
    cases hs : timeReplace (((8 * 60 : Int) + (n - 1) * 105).fdiv 60)
        (((8 * 60 : Int) + (n - 1) * 105).fmod 60) with
    | error e => exact ⟨e, by simp only [hs]⟩
    | ok s =>
      refine ⟨"hour must be in 0..23", ?_⟩
      simp only [hs, timeReplace, if_neg hend]
  · rw [Int.fdiv_eq_ediv _ h60]; omega

/-- Witness for C9 at week 1, Monday, lesson 10. -/
theorem C9_lesson_datetime_not_total_witness :
    (∃ msg, calc_lesson_datetime 1 1 10 = .error msg)
    ∧ 24 ≤ ((8 * 60 : Int) + (10 - 1) * 105 + 90).fdiv 60 :=
  C9_lesson_datetime_not_total 1 1 10 (by norm_num)

/-- **C5.** `format_schedule` visits day codes in ascending order (days
with no entries are simply absent from the association list, hence from the
output), renders the lessons of a day sorted ascending by the key
`cours_nr or 0` (a missing ordinal sorts as 0), and on the two-lesson
Monday example puts the `Lesson 1` (Physics) line before the `Lesson 2`
(Math) line under `Monday:`. -/
theorem C5_format_schedule_order :
    (∀ grouped : List (Int × List Lesson),
      List.Sorted (fun a b : Int => a ≤ b) (dayOrder grouped))
    ∧ (∀ ls : List Lesson,
      List.Sorted (fun a b => lessonSortKey a ≤ lessonSortKey b) (sortLessons ls))
    ∧ format_schedule
        [(1, [{ day_number := some 1, cours_nr := some 2,
                cours_name := some "Math" },
              { day_number := some 1, cours_nr := some 1,
                cours_name := some "Physics" }])]
      = "Day of the week:\n\nMonday:\nLesson 1 | Physics |  | Unknown | "
        ++ "\nLesson 2 | Math |  | Unknown | " := by
  refine ⟨fun grouped => ?_, fun ls => ?_, by decide⟩
  · exact List.sorted_insertionSort _ _
  · haveI : IsTotal Lesson (fun a b => lessonSortKey a ≤ lessonSortKey b) :=
      ⟨fun a b => le_total _ _⟩
    haveI : IsTrans Lesson (fun a b => lessonSortKey a ≤ lessonSortKey b) :=
      ⟨fun a b c hab hbc => le_trans hab hbc⟩
    exact List.sorted_insertionSort _ _

/-- **C6.** Every lesson entry renders as one pipe-delimited line, with the
empty string standing in for a missing name, type or teacher and the
literal `Unknown` when the office is missing or empty; the rendering is
total, so missing optional fields never cause an error. -/
theorem C6_render_lesson_defaults (l : Lesson) :
    render_lesson l
      = "Lesson " ++ pyStrOptInt l.cours_nr ++ " | " ++ l.cours_name.getD ""
        ++ " | " ++ l.cours_type.getD "" ++ " | "
        ++ (match l.cours_office with
            | none => "Unknown"
            | some s => if s = "" then "Unknown" else s)
        ++ " | " ++ l.teacher_name.getD "" := by
  rcases l with ⟨d, nr, cn, ct, co, tn⟩
  cases cn <;> cases ct <;> cases co <;> cases tn <;>
      simp only [render_lesson, pyOrStr, Option.getD_some, Option.getD_none] <;>
    split_ifs <;> simp_all

/-- Witness for C6 at a concrete lesson with all optional fields absent. -/
theorem C6_render_lesson_defaults_witness :
    render_lesson {}
      = "Lesson " ++ pyStrOptInt none ++ " | " ++ (none : Option String).getD ""
        ++ " | " ++ (none : Option String).getD "" ++ " | "
        ++ (match (none : Option String) with
            | none => "Unknown"
            | some s => if s = "" then "Unknown" else s)
        ++ " | " ++ (none : Option String).getD "" :=
  C6_render_lesson_defaults {}

/-- **C10.** A lesson whose `cours_nr` is missing still renders, its line
starting with the literal text `Lesson None | `, and it sorts with
ordinal key 0. -/
theorem C10_missing_ordinal_renders_None (l : Lesson) (h : l.cours_nr = none) :
    (∃ rest, render_lesson l = "Lesson None | " ++ rest)
    ∧ lessonSortKey l = 0 := by
  constructor
  · refine ⟨pyOrStr l.cours_name "" ++ " | " ++ pyOrStr l.cours_type "" ++ " | "
      ++ (if pyOrStr l.cours_office "" = "" then "Unknown"
          else pyOrStr l.cours_office "") ++ " | "
      ++ pyOrStr l.teacher_name "", ?_⟩
    simp only [render_lesson, h, pyStrOptInt]
    rw [show ("Lesson " ++ "None" ++ " | " : String) = "Lesson None | " from rfl]
    simp only [String.append_assoc]
  · simp [lessonSortKey, pyOrInt, h]

/-- Witness for C10 at a lesson with only a name. -/
theorem C10_missing_ordinal_renders_None_witness :
    (∃ rest, render_lesson { cours_name := some "Math" }
        = "Lesson None | " ++ rest)
    ∧ lessonSortKey { cours_name := some "Math" } = 0 :=
  C10_missing_ordinal_renders_None { cours_name := some "Math" } rfl

/-- **C7, counterexample.** `date_str` is tested for truthiness, so the
empty string is passed but does not override the week: with
`date_str = some ""` the fetch still uses the explicitly passed week (5
resp. 7 below, visible in the probe output), and no parse of the date
string is attempted even though `""` does not parse at all. -/
theorem C7_counterexample :
    parse_raw_schedule_json probeFetch "G" (some 11) (some "") false
      = .ok "Day of the week:\n\nDay 11:\nLesson None |  |  | Unknown | "
    ∧ parse_raw_schedule_json probeFetch "G" (some 12) (some "") false
      = .ok "Day of the week:\n\nDay 12:\nLesson None |  |  | Unknown | "
    ∧ _parse_date_str "" = none :=
  ⟨by rfl, by rfl, rfl⟩

/-- **C7 (amended).** Passing a non-empty `date_str` that parses to date `t`
makes the fetch run with the week derived from `t`, regardless of any
passed week (the call equals one with that derived week and no date
string); with no (or an empty) date string and no week, the week defaults
to 1. -/
theorem C7_week_resolution :
    (∀ (fetch : String → Int → Bool → RawPayload) (g : String) (w : Option Int)
        (s : String) (d : Bool) (t : Int), s ≠ "" → _parse_date_str s = some t →
      parse_raw_schedule_json fetch g w (some s) d
        = parse_raw_schedule_json fetch g
            (some (calc_university_week_from_date t)) none d)
    ∧ (∀ (fetch : String → Int → Bool → RawPayload) (g : String) (d : Bool),
      parse_raw_schedule_json fetch g none none d
        = parse_raw_schedule_json fetch g (some 1) none d) := by
  constructor
  · intro fetch g w s d t hs hp
    simp only [parse_raw_schedule_json, if_pos hs, hp]
  · intro fetch g d
    rfl

/-- Witness for C7 at `date_str = "01.09.2025"` (the epoch) and week 9. -/
theorem C7_week_resolution_witness :
    parse_raw_schedule_json probeFetch "G" (some 9) (some "01.09.2025") false
      = parse_raw_schedule_json probeFetch "G"
          (some (calc_university_week_from_date 739495)) none false
    ∧ parse_raw_schedule_json probeFetch "G" none none false
      = parse_raw_schedule_json probeFetch "G" (some 1) none false :=
  ⟨C7_week_resolution.1 probeFetch "G" (some 9) "01.09.2025" false 739495
      (by decide) (by rfl),
   C7_week_resolution.2 probeFetch "G" false⟩

/-- Fidelity check against CPython: the Arabic-Indic digit three in the
ones place of the day (`"1٣.09.2025"`) is matched by `[12]\d` and the
string parses to 2025-09-13, as `datetime.strptime` does. -/
theorem parse_unicode_day_ones :
    _parse_date_str (String.mk ['1', Char.ofNat 1635, '.', '0', '9', '.',
        '2', '0', '2', '5'])
      = some (toOrdinal 2025 9 13) := by rfl

/-- Fidelity check against CPython: an all-Arabic-Indic year
(`"01.09.٢٠٢٥"`) is matched by `\d\d\d\d` and converts to 2025. -/
theorem parse_unicode_year :
    _parse_date_str (String.mk ['0', '1', '.', '0', '9', '.',
        Char.ofNat 1634, Char.ofNat 1632, Char.ofNat 1634, Char.ofNat 1637])
      = some (toOrdinal 2025 9 1) := by rfl

/-- Fidelity check against CPython: a non-ASCII digit in the leading day
position (`"٠1.09.2025"`) matches no day alternative and the parse
fails. -/
theorem parse_unicode_day_head_rejected :
    _parse_date_str (String.mk [Char.ofNat 1632, '1', '.', '0', '9', '.',
        '2', '0', '2', '5'])
      = none := by rfl

/-- Fidelity check against CPython: the month pattern contains no `\d`,
so a non-ASCII digit in the month (`"31.0٩.2025"`) fails. -/
theorem parse_unicode_month_rejected :
    _parse_date_str (String.mk ['3', '1', '.', '0', Char.ofNat 1641, '.',
        '2', '0', '2', '5'])
      = none := by rfl

/-- Validation of the hash model: FIPS test vector for the empty message. -/
theorem sha256hexdigest_empty :
    sha256hexdigest []
      = "e3b0c44298fc1c149afbf4c8996fb92427ae41e4649b934ca495991b7852b855" := by
  rfl

/-- Validation of the hash model: FIPS test vector for `"abc"`. -/
theorem sha256hexdigest_abc :
    sha256hexdigest (strToUtf8 "abc")
      = "ba7816bf8f01cfea414140de5dae2223b00361a396177a9cb410ff61f20015ad" := by
  rfl

/-- Hex encoding doubles the length. -/
theorem hexOfBytes_length (bs : List Nat) :
    (hexOfBytes bs).length = 2 * bs.length := by
  induction bs with
  | nil => rfl
  | cons b bs ih =>
    simp only [hexOfBytes, List.length_cons, ih]
    omega

/-- A SHA-256 digest is 32 bytes. -/
theorem digestBytes_length (h : Hash8) : (digestBytes h).length = 32 := by
  simp [digestBytes, wordBytes]

/-- Every digest byte is below 256. -/
theorem digestBytes_lt (h : Hash8) : ∀ b ∈ digestBytes h, b < 256 := by
  intro b hb
  simp [digestBytes, wordBytes, List.mem_append, List.mem_cons] at hb
  omega

/-- Hex digits of values below 16 are lowercase hex characters. -/
theorem hexDigitChar_mem : ∀ n, n < 16 → hexDigitChar n ∈ lowerHexChars := by
  decide

/-- Hex encodings of byte lists use only lowercase hex characters. -/
theorem hexOfBytes_mem (bs : List Nat) (hb : ∀ b ∈ bs, b < 256) :
    ∀ c ∈ hexOfBytes bs, c ∈ lowerHexChars := by
  induction bs with
  | nil => simp [hexOfBytes]
  | cons b bs ih =>
    intro c hc
    simp only [hexOfBytes, List.mem_cons] at hc
    rcases hc with rfl | rfl | hc
    · exact hexDigitChar_mem _ (by have := hb b (by simp); omega)
    · exact hexDigitChar_mem _ (by have := hb b (by simp); omega)
    · exact ih (fun x hx => hb x (by simp [hx])) c hc

/-- **C4.** `generate_event_id` returns exactly the first 32 characters of
the lowercase hex SHA-256 digest of the UTF-8 canonical string
`group:week:day:ordinal:name:type`; consequently the result always has
length 32 and consists of lowercase hex characters only (determinism is
immediate, the embedding being a pure function of the six inputs). -/
theorem C4_generate_event_id (g : String) (w d n : Int) (cn ct : String) :
    generate_event_id g w d n cn ct
      = String.mk ((hexOfBytes (digestBytes (sha256bytes (strToUtf8
          (g ++ ":" ++ toString w ++ ":" ++ toString d ++ ":" ++ toString n
            ++ ":" ++ cn ++ ":" ++ ct))))).take 32)
    ∧ (generate_event_id g w d n cn ct).length = 32
    ∧ ∀ c ∈ (generate_event_id g w d n cn ct).data, c ∈ lowerHexChars := by
  refine ⟨rfl, ?_, ?_⟩
  · simp only [generate_event_id, String.length, List.length_take,
      hexOfBytes_length, digestBytes_length]
    omega
  · intro c hc
    simp only [generate_event_id] at hc
    exact hexOfBytes_mem _ (digestBytes_lt _) c (List.take_subset _ _ hc)

/-- Witness for C4: the event id of a concrete lesson, matching the first
32 hex characters of the real SHA-256 of `IT11Z:1:2:3:Mate:Curs`. -/
theorem C4_generate_event_id_witness :
    (generate_event_id "IT11Z" 1 2 3 "Mate" "Curs").length = 32
    ∧ generate_event_id "IT11Z" 1 2 3 "Mate" "Curs"
        = "a3fd91ae8ec5edec03e9e6fcc59fa776" :=
  ⟨(C4_generate_event_id "IT11Z" 1 2 3 "Mate" "Curs").2.1, by rfl⟩

end DataParser
